import Mathlib

/-!
Verification development for the wallet-session and dashboard-data
synchronization layer of a browser-resident DeFi portfolio dashboard.

The embedding below is a shallow model of three JavaScript modules:

* the dashboard service (`dashboardService.js`): an address-keyed,
  TTL-gated localStorage cache (`isCacheValid`, `getCachedData`,
  `cacheData`) and the fetch wrapper `getDashboardData` with its
  cache-first short-circuit and its on-failure cache fallback;
* the wallet context (`WalletContext.jsx`): the reducer over
  `WalletState`, the single-flight coordinator `loadDashboardData` with
  its module-level lock `dashboardRequestInProgress` and rate limiter
  `canMakeDashboardRequest`, and the lifecycle entry points `connect`,
  `disconnect`, `forceDisconnect`, `handleAccountsChanged`;
* the wallet utility `forceWalletReset` (`wallet.js`).

Conventions of the embedding:

* `localStorage` is an association list from string keys to string
  values (`Storage`); `JSON.stringify`/`JSON.parse` of the (opaque)
  dashboard snapshot are modelled by `toString` and a decimal parser
  (`parseDecNat`) over a snapshot identifier (`Nat`): a stored string
  that does not parse models a corrupt entry, exactly as a `JSON.parse`
  exception does in the source (both are caught and mapped to a cache
  miss).
* `parseInt` on the stored timestamp is modelled by the same parser;
  in the source a non-numeric timestamp makes `parseInt` return `NaN`
  and the `NaN < duration` comparison false, so both models classify a
  corrupt timestamp as an invalid cache entry.
* asynchronous calls (`fetch`, provider calls) are modelled by passing
  their eventual outcome as an explicit `Except` argument; `dispatch`
  is modelled as an immediate reducer application, and every operation
  additionally records the exact list of actions it dispatched so that
  a dispatch can also be replayed against a *different* state (this is
  how a "late" response, resolving after the active account changed,
  is analysed).
* wall-clock instants are `Nat` epoch milliseconds passed explicitly.
-/

/-- Model of `window.localStorage`: an association list of string keys
to string values, with `getItem`/`setItem`/`removeItem`. -/
abbrev Storage := List (String × String)

/-- Model of `localStorage.getItem`. -/
def Storage.getItem (st : Storage) (key : String) : Option String :=
  match st with
  | [] => none
  | (k, v) :: rest => if k = key then some v else Storage.getItem rest key

/-- Model of `localStorage.setItem` (replaces an existing binding for the
key, otherwise appends). -/
def Storage.setItem (st : Storage) (key val : String) : Storage :=
  match st with
  | [] => [(key, val)]
  | (k, v) :: rest =>
    if k = key then (key, val) :: rest else (k, v) :: Storage.setItem rest key val

deriving instance DecidableEq for Except

/-- Numeric value of one decimal digit character, `none` for any other
character. -/
def charDigit? (c : Char) : Option Nat :=
  if c = '0' then some 0
  else if c = '1' then some 1
  else if c = '2' then some 2
  else if c = '3' then some 3
  else if c = '4' then some 4
  else if c = '5' then some 5
  else if c = '6' then some 6
  else if c = '7' then some 7
  else if c = '8' then some 8
  else if c = '9' then some 9
  else none

/-- Accumulating decimal reading of a character list; any non-digit
character fails the whole parse. -/
def digitsVal (cs : List Char) (acc : Nat) : Option Nat :=
  match cs with
  | [] => some acc
  | c :: rest =>
    match charDigit? c with
    | none => none
    | some d => digitsVal rest (10 * acc + d)

/-- Parse of a non-empty all-digit decimal string. The stored values the
source ever writes are `JSON.stringify(data)` and `Date.now().toString()`,
both round-tripping through this; anything else models a corrupt entry
and fails, as `JSON.parse` (throwing) and `parseInt` (yielding `NaN`,
whose comparisons are false) do in the source. -/
def parseDecNat (s : String) : Option Nat :=
  match s.data with
  | [] => none
  | cs => digitsVal cs 0

/-- Model of `JSON.parse` applied to a stored snapshot string: the snapshot
is opaque to the core and represented by a numeric identifier; `none`
models a `JSON.parse` exception on a corrupt entry. -/
def jsonParseSnap (s : String) : Option Nat := parseDecNat s

/-- Model of `JSON.stringify` applied to a snapshot. -/
def jsonStringifySnap (data : Nat) : String := toString data

/-- Model of `parseInt` applied to the stored `lastUpdated` timestamp;
`none` models `NaN` (and in `isCacheValid` is mapped to an invalid entry,
as `NaN` comparisons are false in the source). -/
def jsParseInt (s : String) : Option Nat := parseDecNat s

/-- Storage key `STORAGE_KEYS.DASHBOARD_DATA + walletAddress`
(source constant `dashboard_data_`). -/
def DASHBOARD_DATA_KEY (walletAddress : String) : String :=
  "dashboard_data_" ++ walletAddress

/-- Storage key `STORAGE_KEYS.LAST_UPDATED + walletAddress`
(source constant `dashboard_last_updated_`). -/
def LAST_UPDATED_KEY (walletAddress : String) : String :=
  "dashboard_last_updated_" ++ walletAddress

/-- Source constant `STORAGE_KEYS.CACHE_DURATION = 5 * 60 * 1000`
(five minutes in milliseconds). -/
def CACHE_DURATION : Nat := 5 * 60 * 1000

/-- Model of `isCacheValid(walletAddress)`: reads the `lastUpdated` entry,
parses it, and checks `now - parseInt(lastUpdated) < CACHE_DURATION`; a
missing or unparseable timestamp yields `false` (the source catch / `NaN`
comparison paths). -/
def isCacheValid (st : Storage) (now : Nat) (walletAddress : String) : Bool :=
  match Storage.getItem st (LAST_UPDATED_KEY walletAddress) with
  | none => false
  | some lastUpdated =>
    match jsParseInt lastUpdated with
    | none => false
    | some ts => decide (now - ts < CACHE_DURATION)

/-- Model of `getCachedData(walletAddress)`: returns the parsed snapshot
only when `isCacheValid` holds and the data entry is present and parses;
every failure path (absent, expired, corrupt — a thrown `JSON.parse`
error is caught in the source) returns `none`. -/
def getCachedData (st : Storage) (now : Nat) (walletAddress : String) : Option Nat :=
  if isCacheValid st now walletAddress then
    match Storage.getItem st (DASHBOARD_DATA_KEY walletAddress) with
    | none => none
    | some cachedData => jsonParseSnap cachedData
  else
    none

/-- Model of `cacheData(walletAddress, data)`: writes the stringified
snapshot under the data key and the current time under the timestamp
key. -/
def cacheData (st : Storage) (now : Nat) (walletAddress : String) (data : Nat) : Storage :=
  Storage.setItem
    (Storage.setItem st (DASHBOARD_DATA_KEY walletAddress) (jsonStringifySnap data))
    (LAST_UPDATED_KEY walletAddress) (toString now)

/-- Result of one `getDashboardData` invocation: the value returned or the
error thrown, the storage after the call, and whether a network `fetch`
was actually issued. -/
structure FetchOutcome where
  result : Except String Nat
  storage : Storage
  networkFetched : Bool
deriving Repr

/-- Model of the fetch-and-fallback part of `getDashboardData`: the
network outcome is the explicit argument `fetchResult`. On success the
fresh data is written through `cacheData` and returned; on failure
(network error or non-ok HTTP status, both thrown in the source) the
catch block retries `getCachedData` and returns it if present, otherwise
rethrows the error. -/
def getDashboardDataFetchPath (st : Storage) (now : Nat) (walletAddress : String)
    (fetchResult : Except String Nat) : FetchOutcome :=
  match fetchResult with
  | Except.ok data =>
    { result := Except.ok data
      storage := cacheData st now walletAddress data
      networkFetched := true }
  | Except.error e =>
    match getCachedData st now walletAddress with
    | some cachedData =>
      { result := Except.ok cachedData, storage := st, networkFetched := true }
    | none =>
      { result := Except.error e, storage := st, networkFetched := true }

/-- Model of `getDashboardData(walletAddress, forceRefresh)`: unless
`forceRefresh` is set, a fresh cached snapshot short-circuits the network
fetch; otherwise the fetch path runs. -/
def getDashboardData (st : Storage) (now : Nat) (walletAddress : String)
    (forceRefresh : Bool) (fetchResult : Except String Nat) : FetchOutcome :=
  if forceRefresh = false then
    match getCachedData st now walletAddress with
    | some cachedData =>
      { result := Except.ok cachedData, storage := st, networkFetched := false }
    | none => getDashboardDataFetchPath st now walletAddress fetchResult
  else
    getDashboardDataFetchPath st now walletAddress fetchResult

/-- Model of `getDashboardDataAndParse`, the alias the wallet context
actually calls. -/
def getDashboardDataAndParse (st : Storage) (now : Nat) (walletAddress : String)
    (forceRefresh : Bool) (fetchResult : Except String Nat) : FetchOutcome :=
  getDashboardData st now walletAddress forceRefresh fetchResult

/-- Network metadata stored in `WalletState.network`. -/
structure WalletNetwork where
  chainId : Nat
  name : String
deriving Repr, DecidableEq

/-- Payload of a successful provider connection (`connectMetaMask` /
`getCurrentAccount` result): address, balance and network. -/
structure WalletData where
  address : String
  balance : String
  network : WalletNetwork
deriving Repr, DecidableEq

/-- Model of the React reducer state of `WalletContext.jsx` (the variant
with dashboard coordination). The dashboard snapshot is the opaque
identifier `Nat`, the two nullable timestamps are `Option Nat` epoch
milliseconds. -/
structure WalletState where
  isConnected : Bool
  account : Option String
  balance : String
  network : Option WalletNetwork
  isConnecting : Bool
  error : Option String
  dashboardData : Option Nat
  isLoadingDashboard : Bool
  hasLoadedDashboardThisSession : Bool
  lastDashboardRequestTime : Option Nat
deriving Repr, DecidableEq

/-- Model of the source's `initialState` object. -/
def initialState : WalletState :=
  { isConnected := false
    account := none
    balance := "0"
    network := none
    isConnecting := false
    error := none
    dashboardData := none
    isLoadingDashboard := false
    hasLoadedDashboardThisSession := false
    lastDashboardRequestTime := none }

/-- Model of the `WALLET_ACTIONS` dispatched to the reducer. -/
inductive WalletAction where
  | setConnecting
  | setConnected (payload : WalletData)
  | setDisconnected
  | setError (payload : String)
  | clearError
  | updateBalance (payload : String)
  | setLoadingDashboard (payload : Bool)
  | setDashboardData (payload : Nat)
  | setDashboardError (payload : String)
  | setDashboardLoadedThisSession (payload : Bool)
  | setLastDashboardRequestTime (payload : Nat)
deriving Repr, DecidableEq

/-- Model of `walletReducer`, case for case. -/
def walletReducer (state : WalletState) (action : WalletAction) : WalletState :=
  match action with
  | .setConnecting => { state with isConnecting := true, error := none }
  | .setConnected payload =>
    { state with
        isConnected := true
        isConnecting := false
        account := some payload.address
        balance := payload.balance
        network := some payload.network
        error := none }
  | .setDisconnected => initialState
  | .setError payload => { state with isConnecting := false, error := some payload }
  | .clearError => { state with error := none }
  | .updateBalance payload => { state with balance := payload }
  | .setLoadingDashboard payload => { state with isLoadingDashboard := payload }
  | .setDashboardData payload =>
    { state with
        dashboardData := some payload
        isLoadingDashboard := false
        hasLoadedDashboardThisSession := true }
  | .setDashboardError payload =>
    { state with isLoadingDashboard := false, error := some payload }
  | .setDashboardLoadedThisSession payload =>
    { state with hasLoadedDashboardThisSession := payload }
  | .setLastDashboardRequestTime payload =>
    { state with lastDashboardRequestTime := some payload }

/-- Replay of a list of dispatched actions against a wallet state. -/
def applyActions (state : WalletState) (actions : List WalletAction) : WalletState :=
  actions.foldl walletReducer state

/-- Whole-process state: the React wallet state plus the module-level
globals of `WalletContext.jsx` (`dashboardRequestInProgress`,
`requestCounter`) and the durable `localStorage`. -/
structure ProcState where
  wallet : WalletState
  dashboardRequestInProgress : Bool
  requestCounter : Nat
  storage : Storage
deriving Repr, DecidableEq

/-- Immediate application of one dispatched action to the process
state. -/
def dispatchTo (σ : ProcState) (action : WalletAction) : ProcState :=
  { σ with wallet := walletReducer σ.wallet action }

/-- Source constant `DASHBOARD_REQUEST_RATE_LIMIT_MS = 60 * 1000`. -/
def DASHBOARD_REQUEST_RATE_LIMIT_MS : Nat := 60 * 1000

/-- Model of `canMakeDashboardRequest()`: true when no request time has
been recorded yet, or at least the rate-limit window has elapsed since
the recorded `lastDashboardRequestTime`. -/
def canMakeDashboardRequest (state : WalletState) (now : Nat) : Bool :=
  match state.lastDashboardRequestTime with
  | none => true
  | some t => decide (DASHBOARD_REQUEST_RATE_LIMIT_MS ≤ now - t)

/-- JavaScript falsiness of the `walletAddress` argument (`undefined`,
`null` or the empty string). -/
def jsFalsyStr (s : Option String) : Bool :=
  match s with
  | none => true
  | some a => decide (a = "")

/-- Result of one `loadDashboardData` invocation. `preActions` are the
dispatches issued before the awaited fetch (they land while the fetch is
in flight); `resolveActions` are the dispatches issued when the fetch
settles (they land on whatever wallet state is current at that moment —
the late-response analysis replays them against a changed state).
`storage`, `dashboardRequestInProgress` and `requestCounter` are the
values of the globals after the invocation terminated. -/
structure LoadResult where
  issuedNetworkFetch : Bool
  preActions : List WalletAction
  resolveActions : List WalletAction
  storage : Storage
  dashboardRequestInProgress : Bool
  requestCounter : Nat
deriving Repr, DecidableEq

/-- The result of a `loadDashboardData` call that returns before touching
anything: no fetch, no dispatch, globals unchanged. -/
def loadNoOp (σ : ProcState) : LoadResult :=
  { issuedNetworkFetch := false
    preActions := []
    resolveActions := []
    storage := σ.storage
    dashboardRequestInProgress := σ.dashboardRequestInProgress
    requestCounter := σ.requestCounter }

/-- Model of `loadDashboardData(walletAddress, forceRefresh)`. Guards in
source order: falsy address; the module-level single-flight lock; the
session-loaded flag (skipped when forcing); the rate limiter (skipped
when forcing). Past the guards it acquires the lock, dispatches
`SET_LOADING_DASHBOARD` and `SET_LAST_DASHBOARD_REQUEST_TIME` (the
attempt time, recorded before the request), awaits
`getDashboardDataAndParse`, dispatches `SET_DASHBOARD_DATA` on success or
`SET_DASHBOARD_ERROR` on failure, and releases the lock in the `finally`
block on every path. The fetch outcome is the explicit `fetchResult`
argument. -/
def loadDashboardData (σ : ProcState) (now : Nat) (walletAddress : Option String)
    (forceRefresh : Bool) (fetchResult : Except String Nat) : LoadResult :=
  if jsFalsyStr walletAddress then loadNoOp σ
  else if σ.dashboardRequestInProgress then loadNoOp σ
  else
    let rc := σ.requestCounter + 1
    if σ.wallet.hasLoadedDashboardThisSession && !forceRefresh then
      { loadNoOp σ with requestCounter := rc }
    else if !forceRefresh && !canMakeDashboardRequest σ.wallet now then
      { loadNoOp σ with requestCounter := rc }
    else
      let addr := walletAddress.getD ""
      let outcome := getDashboardDataAndParse σ.storage now addr forceRefresh fetchResult
      match outcome.result with
      | Except.ok data =>
        { issuedNetworkFetch := outcome.networkFetched
          preActions :=
            [WalletAction.setLoadingDashboard true,
             WalletAction.setLastDashboardRequestTime now]
          resolveActions := [WalletAction.setDashboardData data]
          storage := outcome.storage
          dashboardRequestInProgress := false
          requestCounter := rc }
      | Except.error _ =>
        { issuedNetworkFetch := outcome.networkFetched
          preActions :=
            [WalletAction.setLoadingDashboard true,
             WalletAction.setLastDashboardRequestTime now]
          resolveActions := [WalletAction.setDashboardError "Failed to load portfolio data"]
          storage := outcome.storage
          dashboardRequestInProgress := false
          requestCounter := rc }

/-- Commit of a `loadDashboardData` invocation when no concurrent event
interleaved: all its dispatches land on the state it was called on. -/
def commitLoad (σ : ProcState) (r : LoadResult) : ProcState :=
  { wallet := applyActions σ.wallet (r.preActions ++ r.resolveActions)
    dashboardRequestInProgress := r.dashboardRequestInProgress
    requestCounter := r.requestCounter
    storage := r.storage }

/-- Result of a lifecycle call (`connect` / `disconnect`): the resulting
process state and the ordered list of actions the call dispatched up to
its terminal resolution. Dispatches made by the `setTimeout` callbacks
the source schedules (delayed advisory messages and their auto-clears)
happen after the call resolved and are only `SET_ERROR`/`CLEAR_ERROR`
dispatches; they are outside these lists. -/
structure CallResult where
  proc : ProcState
  actions : List WalletAction
deriving Repr, DecidableEq

/-- A JavaScript error object as inspected by `connect`: an optional
numeric `code` and an optional `message`. -/
structure JsError where
  code : Option Int
  message : Option String
deriving Repr, DecidableEq

/-- Classification of a failed `connectMetaMask` call in `connect`'s catch
block: code `4001` is a user rejection, code `-32002` an already-pending
request, a truthy message is passed through, anything else yields the
default message. -/
def classifyConnectError (error : JsError) : String :=
  if error.code = some 4001 then "Connection rejected by user"
  else if error.code = some (-32002) then "Connection request already pending"
  else
    match error.message with
    | some m => if m = "" then "Failed to connect wallet" else m
    | none => "Failed to connect wallet"

/-- Model of `connect()`. The environment is explicit: whether the
MetaMask capability is present, the outcome of the awaited
`connectMetaMask()`, and (for the nested dashboard load on success) the
clock and the dashboard fetch outcome. On success the source awaits
`loadDashboardData(walletData.address)` non-forced; the dispatches of
that load are part of `connect`'s own resolution.
The dispatches issued before the nested load (`SET_CONNECTING`,
`SET_CONNECTED`) do not touch `hasLoadedDashboardThisSession` or
`lastDashboardRequestTime`, so threading the updated state into the load
matches the stale-closure reads of the source. -/
def connect (σ : ProcState) (isMetaMaskInstalled : Bool)
    (connectMetaMaskResult : Except JsError WalletData)
    (now : Nat) (fetchResult : Except String Nat) : CallResult :=
  if isMetaMaskInstalled = false then
    { proc := dispatchTo σ (WalletAction.setError
        "MetaMask is not installed. Please install MetaMask to continue.")
      actions := [WalletAction.setError
        "MetaMask is not installed. Please install MetaMask to continue."] }
  else
    let σ1 := dispatchTo σ WalletAction.setConnecting
    match connectMetaMaskResult with
    | Except.ok walletData =>
      let σ2 := dispatchTo σ1 (WalletAction.setConnected walletData)
      let r := loadDashboardData σ2 now (some walletData.address) false fetchResult
      { proc := commitLoad σ2 r
        actions := WalletAction.setConnecting :: WalletAction.setConnected walletData ::
          (r.preActions ++ r.resolveActions) }
    | Except.error e =>
      { proc := dispatchTo σ1 (WalletAction.setError (classifyConnectError e))
        actions := [WalletAction.setConnecting,
                    WalletAction.setError (classifyConnectError e)] }

/-- Result object of the awaited `disconnectWallet()` provider call. -/
structure DisconnectOutcome where
  success : Bool
  method : String
  message : String
deriving Repr, DecidableEq

/-- Model of `disconnect()`. Environment: the outcome of the awaited
`disconnectWallet()` (an exception models its throw) and the value of the
awaited `shouldShowDisconnectGuidance()` (that helper catches internally
and returns a boolean). The local state is always cleared via
`SET_DISCONNECTED`; the advisory `SET_ERROR` dispatches of the
`manual`/`error`/catch branches are part of the resolution; the delayed
verification callback and the error auto-clear timers are scheduled
after resolution and are not modelled here (they dispatch only
`SET_ERROR`/`CLEAR_ERROR`). -/
def disconnect (σ : ProcState) (disconnectWalletResult : Except String DisconnectOutcome)
    (needsGuidance : Bool) : CallResult :=
  let σ1 := dispatchTo σ WalletAction.setConnecting
  match disconnectWalletResult with
  | Except.ok result =>
    let σ2 := dispatchTo σ1 WalletAction.setDisconnected
    if result.success then
      { proc := σ2, actions := [WalletAction.setConnecting, WalletAction.setDisconnected] }
    else if result.method = "manual" then
      if needsGuidance then
        let msg := "Disconnected locally. For complete disconnect, click the MetaMask extension -> Connected sites -> Disconnect this site."
        { proc := dispatchTo σ2 (WalletAction.setError msg)
          actions := [WalletAction.setConnecting, WalletAction.setDisconnected,
                      WalletAction.setError msg] }
      else
        { proc := σ2, actions := [WalletAction.setConnecting, WalletAction.setDisconnected] }
    else if result.method = "error" then
      let msg := "Disconnect error: " ++ result.message
      { proc := dispatchTo σ2 (WalletAction.setError msg)
        actions := [WalletAction.setConnecting, WalletAction.setDisconnected,
                    WalletAction.setError msg] }
    else
      { proc := σ2, actions := [WalletAction.setConnecting, WalletAction.setDisconnected] }
  | Except.error _ =>
    let σ2 := dispatchTo σ1 WalletAction.setDisconnected
    let msg := "Wallet disconnected locally. Some cached data may persist in MetaMask."
    { proc := dispatchTo σ2 (WalletAction.setError msg)
      actions := [WalletAction.setConnecting, WalletAction.setDisconnected,
                  WalletAction.setError msg] }

/-- Result object of `forceWalletReset()` (from `wallet.js`), extended
with the reload the function schedules: on its normal success path it
arms a `setTimeout(() => window.location.reload(), 1500)`. -/
structure ResetResult where
  success : Bool
  method : String
  message : String
  reloadDelayMs : Option Nat
deriving Repr, DecidableEq

/-- Model of `forceWalletReset()`: with no MetaMask it reports success
without scheduling anything; otherwise it clears the wallet cache,
best-effort revokes permissions (the revoke failure is caught and
ignored), schedules the page reload 1500 ms out and reports success; if
the body throws (`resetError`), it reports a failure result carrying the
message. -/
def forceWalletReset (isMetaMaskInstalled : Bool) (resetError : Option String) : ResetResult :=
  if isMetaMaskInstalled = false then
    { success := true, method := "no-metamask", message := "", reloadDelayMs := none }
  else
    match resetError with
    | none =>
      { success := true, method := "force-reset", message := "", reloadDelayMs := some 1500 }
    | some m =>
      { success := false, method := "error", message := m, reloadDelayMs := none }

/-- Result of a `forceDisconnect()` call: final process state, dispatched
actions, and the page-reload delay the underlying reset scheduled (if
any). -/
structure ForceDisconnectResult where
  proc : ProcState
  actions : List WalletAction
  reloadDelayMs : Option Nat
deriving Repr, DecidableEq

/-- Model of `forceDisconnect()`: dispatches `SET_CONNECTING`, awaits
`forceWalletReset()`; on a success result it only logs (the reset's
scheduled reload is relied on for recovery); on a failure result or a
thrown call (`callThrew`) it dispatches `SET_DISCONNECTED` followed by a
`SET_ERROR`. -/
def forceDisconnect (σ : ProcState) (isMetaMaskInstalled : Bool)
    (resetError : Option String) (callThrew : Bool) : ForceDisconnectResult :=
  let σ1 := dispatchTo σ WalletAction.setConnecting
  if callThrew then
    let msg := "Force disconnect failed. Please manually disconnect from MetaMask."
    { proc := dispatchTo (dispatchTo σ1 WalletAction.setDisconnected) (WalletAction.setError msg)
      actions := [WalletAction.setConnecting, WalletAction.setDisconnected,
                  WalletAction.setError msg]
      reloadDelayMs := none }
  else
    let result := forceWalletReset isMetaMaskInstalled resetError
    if result.success then
      { proc := σ1
        actions := [WalletAction.setConnecting]
        reloadDelayMs := result.reloadDelayMs }
    else
      let msg := "Force disconnect failed: " ++ result.message
      { proc := dispatchTo (dispatchTo σ1 WalletAction.setDisconnected) (WalletAction.setError msg)
        actions := [WalletAction.setConnecting, WalletAction.setDisconnected,
                    WalletAction.setError msg]
        reloadDelayMs := none }

/-- Result of one `handleAccountsChanged` event: final process state, the
actions dispatched, whether `loadDashboardData(..., true)` was invoked,
and whether that load actually issued a network fetch. -/
structure HandlerResult where
  proc : ProcState
  actions : List WalletAction
  forcedLoadInvoked : Bool
  issuedNetworkFetch : Bool
deriving Repr, DecidableEq

/-- Model of the `handleAccountsChanged(accounts)` listener. An empty
account list behaves as `disconnect()`. Otherwise the current account is
re-resolved from the provider (`getCurrentAccountResult`; a throw falls
back to `disconnect()`, a null result does nothing); on success the
handler dispatches `SET_DASHBOARD_LOADED_THIS_SESSION false` and
`SET_CONNECTED`, then awaits `loadDashboardData(account.address, true)`.
The load is forced, so the session/rate-limit guards its stale closure
would read are skipped; only the module-level lock and the storage feed
it. -/
def handleAccountsChanged (σ : ProcState) (now : Nat) (accounts : List String)
    (getCurrentAccountResult : Except String (Option WalletData))
    (fetchResult : Except String Nat)
    (disconnectWalletResult : Except String DisconnectOutcome)
    (needsGuidance : Bool) : HandlerResult :=
  if accounts.length = 0 then
    let d := disconnect σ disconnectWalletResult needsGuidance
    { proc := d.proc, actions := d.actions, forcedLoadInvoked := false,
      issuedNetworkFetch := false }
  else
    match getCurrentAccountResult with
    | Except.ok (some account) =>
      let σ1 := dispatchTo σ (WalletAction.setDashboardLoadedThisSession false)
      let σ2 := dispatchTo σ1 (WalletAction.setConnected account)
      let r := loadDashboardData σ2 now (some account.address) true fetchResult
      { proc := commitLoad σ2 r
        actions := WalletAction.setDashboardLoadedThisSession false ::
          WalletAction.setConnected account :: (r.preActions ++ r.resolveActions)
        forcedLoadInvoked := true
        issuedNetworkFetch := r.issuedNetworkFetch }
    | Except.ok none =>
      { proc := σ, actions := [], forcedLoadInvoked := false, issuedNetworkFetch := false }
    | Except.error _ =>
      let d := disconnect σ disconnectWalletResult needsGuidance
      { proc := d.proc, actions := d.actions, forcedLoadInvoked := false,
        issuedNetworkFetch := false }

/-- The guard conjunction under which a `loadDashboardData` invocation
reaches the lock acquisition (`dashboardRequestInProgress = true`): a
truthy address, no fetch in flight, session flag clear unless forcing,
rate limiter open unless forcing. -/
def acquiresLock (σ : ProcState) (now : Nat) (walletAddress : Option String)
    (forceRefresh : Bool) : Bool :=
  !jsFalsyStr walletAddress && !σ.dashboardRequestInProgress &&
    !(σ.wallet.hasLoadedDashboardThisSession && !forceRefresh) &&
    (forceRefresh || canMakeDashboardRequest σ.wallet now)

/-- Process state at process start: initial reducer state, lock free,
counter zero, empty storage. -/
def initialProc : ProcState :=
  { wallet := initialState
    dashboardRequestInProgress := false
    requestCounter := 0
    storage := [] }

/-- A process state with the single-flight lock held (a fetch in
flight). -/
def lockedProc : ProcState :=
  { wallet := initialState
    dashboardRequestInProgress := true
    requestCounter := 1
    storage := [] }

/-- A process state connected as `0xA1` with nothing cached. -/
def connectedA1 : ProcState :=
  { wallet := { initialState with isConnected := true, account := some "0xA1" }
    dashboardRequestInProgress := false
    requestCounter := 0
    storage := [] }

/-- The wallet state current at the moment a late response resolves: the
active account has switched to `0xC3` and no dashboard data is
published for it. -/
def walletC3 : WalletState :=
  { initialState with isConnected := true, account := some "0xC3" }

/-- A storage holding a well-formed cache entry for `0xA1` written at
epoch 0: at `now = 600000` (ten minutes later) it is readable but older
than the five-minute TTL. -/
def staleStore : Storage :=
  [(DASHBOARD_DATA_KEY "0xA1", "42"), (LAST_UPDATED_KEY "0xA1", "0")]

/-- The outcome of a non-forced load for `0xA1` at `t = 1000` on a fresh
process whose fetch fails: it issues the fetch, records the attempt
time, and publishes an error (no snapshot, no session flag). -/
def failedLoadAtT1000 : LoadResult :=
  loadDashboardData initialProc 1000 (some "0xA1") false
    (Except.error "HTTP error! status: 500")

/-- The process state after that failed load committed. -/
def stateAfterFailedLoad : ProcState := commitLoad initialProc failedLoadAtT1000

/-- A process state in which every non-forced guard would fire: session
flag set, a request recorded one millisecond ago, and a fresh cache
entry for `0xA1` — used to show a forced load bypasses them all. -/
def guardedProc : ProcState :=
  { wallet :=
      { initialState with
          hasLoadedDashboardThisSession := true
          lastDashboardRequestTime := some 999 }
    dashboardRequestInProgress := false
    requestCounter := 0
    storage := cacheData [] 1000 "0xA1" 42 }

/-- The provider-resolved account after a switch to `0xC3`. -/
def walletDataC3 : WalletData :=
  { address := "0xC3", balance := "0.5", network := { chainId := 1, name := "mainnet" } }

/-- A storage holding a cache entry for the previously active address
`0xB2`, written at epoch 100. -/
def storeWithB2 : Storage := cacheData [] 100 "0xB2" 7

/-- A process state connected as `0xA1` whose storage holds the `0xB2`
cache entry. -/
def procA1withB2cache : ProcState :=
  { wallet := { initialState with isConnected := true, account := some "0xA1" }
    dashboardRequestInProgress := false
    requestCounter := 0
    storage := storeWithB2 }

/-- Reading back through a write: `getItem` after `setItem` returns the new
value on the written key and is unchanged on every other key. -/
theorem Storage.getItem_setItem (st : Storage) (key val k : String) :
    Storage.getItem (Storage.setItem st key val) k =
      if k = key then some val else Storage.getItem st k := by
  induction st with
  | nil =>
    by_cases h : k = key
    · simp [Storage.setItem, Storage.getItem, h]
    · simp [Storage.setItem, Storage.getItem, h, Ne.symm h]
  | cons hd tl ih =>
    obtain ⟨k0, v0⟩ := hd
    by_cases h0 : k0 = key
    · subst h0
      by_cases h : k = k0
      · simp [Storage.setItem, Storage.getItem, h]
      · simp [Storage.setItem, Storage.getItem, h, Ne.symm h]
    · by_cases hk : k0 = k
      · subst hk
        simp [Storage.setItem, Storage.getItem, h0]
      · simp [Storage.setItem, Storage.getItem, h0, hk, ih]

/-- Writing a cache entry for one address touches no key other than that
address's data and timestamp keys. -/
theorem cacheData_frame (st : Storage) (now : Nat) (walletAddress : String) (data : Nat)
    (k : String) (h1 : k ≠ DASHBOARD_DATA_KEY walletAddress)
    (h2 : k ≠ LAST_UPDATED_KEY walletAddress) :
    Storage.getItem (cacheData st now walletAddress data) k = Storage.getItem st k := by
  unfold cacheData
  rw [Storage.getItem_setItem, Storage.getItem_setItem]
  simp [h1, h2]

/-- `getDashboardData` writes at most the two cache keys of the requested
address. -/
theorem getDashboardData_storage_frame (st : Storage) (now : Nat) (walletAddress : String)
    (forceRefresh : Bool) (fetchResult : Except String Nat) (k : String)
    (h1 : k ≠ DASHBOARD_DATA_KEY walletAddress) (h2 : k ≠ LAST_UPDATED_KEY walletAddress) :
    Storage.getItem (getDashboardData st now walletAddress forceRefresh fetchResult).storage k =
      Storage.getItem st k := by
  unfold getDashboardData getDashboardDataFetchPath
  repeat' split
  all_goals simp [cacheData_frame st now walletAddress _ k h1 h2]

/-- `loadDashboardData` writes at most the two cache keys of the requested
address. -/
theorem loadDashboardData_storage_frame (σ : ProcState) (now : Nat) (addr : String)
    (forceRefresh : Bool) (fetchResult : Except String Nat) (k : String)
    (h1 : k ≠ DASHBOARD_DATA_KEY addr) (h2 : k ≠ LAST_UPDATED_KEY addr) :
    Storage.getItem (loadDashboardData σ now (some addr) forceRefresh fetchResult).storage k =
      Storage.getItem σ.storage k := by
  unfold loadDashboardData getDashboardDataAndParse
  repeat' split
  any_goals simp [loadNoOp]
  all_goals split
  all_goals simp [getDashboardData_storage_frame σ.storage now addr forceRefresh fetchResult k h1 h2]

/-- The fetch path of `getDashboardData` always issues the network
fetch. -/
theorem getDashboardDataFetchPath_networkFetched (st : Storage) (now : Nat)
    (walletAddress : String) (fetchResult : Except String Nat) :
    (getDashboardDataFetchPath st now walletAddress fetchResult).networkFetched = true := by
  unfold getDashboardDataFetchPath
  repeat' split
  all_goals rfl

/-- If the single-flight lock is free when `loadDashboardData` is invoked,
it is free again when the invocation terminates, on every branch. -/
theorem loadDashboardData_lock_free (σ : ProcState) (now : Nat) (wa : Option String)
    (forceRefresh : Bool) (fetchResult : Except String Nat)
    (h : σ.dashboardRequestInProgress = false) :
    (loadDashboardData σ now wa forceRefresh fetchResult).dashboardRequestInProgress = false := by
  unfold loadDashboardData
  repeat' split
  any_goals simp [loadNoOp, h]
  all_goals split
  all_goals rfl

/-- Replaying the dispatches of any `loadDashboardData` invocation leaves
`isConnecting` unchanged: none of its actions touches that field. -/
theorem applyActions_load_isConnecting (w : WalletState) (σ : ProcState) (now : Nat)
    (wa : Option String) (forceRefresh : Bool) (fetchResult : Except String Nat) :
    (applyActions w ((loadDashboardData σ now wa forceRefresh fetchResult).preActions ++
        (loadDashboardData σ now wa forceRefresh fetchResult).resolveActions)).isConnecting =
      w.isConnecting := by
  unfold loadDashboardData
  repeat' split
  any_goals simp [loadNoOp, applyActions]
  all_goals split
  all_goals simp [applyActions, walletReducer]

/-- Distinct addresses have distinct data keys. -/
theorem DASHBOARD_DATA_KEY_ne_of_ne (p q : String) (h : p ≠ q) :
    DASHBOARD_DATA_KEY p ≠ DASHBOARD_DATA_KEY q := by
  intro he
  apply h
  have h2 := congrArg String.data he
  simp [DASHBOARD_DATA_KEY, String.data_append] at h2
  exact String.ext h2

/-- Distinct addresses have distinct timestamp keys. -/
theorem LAST_UPDATED_KEY_ne_of_ne (p q : String) (h : p ≠ q) :
    LAST_UPDATED_KEY p ≠ LAST_UPDATED_KEY q := by
  intro he
  apply h
  have h2 := congrArg String.data he
  simp [LAST_UPDATED_KEY, String.data_append] at h2
  exact String.ext h2

/-- A data key never collides with a timestamp key, for any pair of
addresses. -/
theorem DASHBOARD_DATA_KEY_ne_LAST_UPDATED_KEY (p q : String) :
    DASHBOARD_DATA_KEY p ≠ LAST_UPDATED_KEY q := by
  intro he
  have h2 := congrArg String.data he
  simp [DASHBOARD_DATA_KEY, LAST_UPDATED_KEY, String.data_append] at h2

/-- C2: a `loadDashboardData` call arriving while the module-level
single-flight lock is held returns before doing anything: it issues no
network fetch, dispatches no action, and leaves the storage, the request
counter and the lock exactly as they were (the call is neither queued
nor merged). -/
theorem single_flight_inflight_noop (σ : ProcState) (now : Nat)
    (walletAddress : Option String) (forceRefresh : Bool) (fetchResult : Except String Nat)
    (h : σ.dashboardRequestInProgress = true) :
    (loadDashboardData σ now walletAddress forceRefresh fetchResult).issuedNetworkFetch = false ∧
    (loadDashboardData σ now walletAddress forceRefresh fetchResult).preActions = [] ∧
    (loadDashboardData σ now walletAddress forceRefresh fetchResult).resolveActions = [] ∧
    (loadDashboardData σ now walletAddress forceRefresh fetchResult).storage = σ.storage ∧
    (loadDashboardData σ now walletAddress forceRefresh fetchResult).requestCounter =
      σ.requestCounter ∧
    (loadDashboardData σ now walletAddress forceRefresh fetchResult).dashboardRequestInProgress =
      σ.dashboardRequestInProgress := by
  unfold loadDashboardData
  cases hj : jsFalsyStr walletAddress <;> simp [h, hj, loadNoOp]

/-- C2 witness: concrete no-op of a non-forced call for `0xA1` arriving
while a fetch is in flight. -/
theorem single_flight_inflight_noop_witness :
    lockedProc.dashboardRequestInProgress = true ∧
    ((loadDashboardData lockedProc 5 (some "0xA1") false (Except.ok 7)).issuedNetworkFetch = false ∧
     (loadDashboardData lockedProc 5 (some "0xA1") false (Except.ok 7)).preActions = [] ∧
     (loadDashboardData lockedProc 5 (some "0xA1") false (Except.ok 7)).resolveActions = [] ∧
     (loadDashboardData lockedProc 5 (some "0xA1") false (Except.ok 7)).storage =
       lockedProc.storage ∧
     (loadDashboardData lockedProc 5 (some "0xA1") false (Except.ok 7)).requestCounter =
       lockedProc.requestCounter ∧
     (loadDashboardData lockedProc 5 (some "0xA1") false
         (Except.ok 7)).dashboardRequestInProgress = lockedProc.dashboardRequestInProgress) :=
  ⟨rfl, single_flight_inflight_noop lockedProc 5 (some "0xA1") false (Except.ok 7) rfl⟩

/-- C5: every `loadDashboardData` invocation that passes all guards and
acquires the single-flight lock has released it by the time it
terminates, whatever the awaited fetch does — success, failure, or a
thrown exception (all outcomes of `fetchResult`): the release sits in
the `finally` block. -/
theorem lock_released_on_every_exit (σ : ProcState) (now : Nat)
    (walletAddress : Option String) (forceRefresh : Bool) (fetchResult : Except String Nat)
    (h : acquiresLock σ now walletAddress forceRefresh = true) :
    (loadDashboardData σ now walletAddress forceRefresh fetchResult).dashboardRequestInProgress =
      false := by
  cases hfree : σ.dashboardRequestInProgress with
  | false => exact loadDashboardData_lock_free σ now walletAddress forceRefresh fetchResult hfree
  | true => simp [acquiresLock, hfree] at h

/-- C5 witness: concrete lock release after a failing fetch on a fresh
process. -/
theorem lock_released_on_every_exit_witness :
    acquiresLock initialProc 0 (some "0xA1") false = true ∧
    (loadDashboardData initialProc 0 (some "0xA1") false
        (Except.error "boom")).dashboardRequestInProgress = false :=
  ⟨by decide, lock_released_on_every_exit initialProc 0 (some "0xA1") false
      (Except.error "boom") (by decide)⟩

/-- C6: the fresh-path cache read is a total function into `Option`; it
returns a snapshot exactly when a stored timestamp entry exists and
parses, its age is strictly below the five-minute TTL, and a stored data
entry exists and parses to that snapshot. Contrapositively, an absent,
expired or unreadable entry yields `none` — never an error, since every
failure path of the source is caught. -/
theorem getCachedData_fresh_characterisation (st : Storage) (now : Nat)
    (walletAddress : String) (snap : Nat) :
    getCachedData st now walletAddress = some snap ↔
      ((∃ tsStr ts, Storage.getItem st (LAST_UPDATED_KEY walletAddress) = some tsStr ∧
          jsParseInt tsStr = some ts ∧ now - ts < CACHE_DURATION) ∧
       (∃ dataStr, Storage.getItem st (DASHBOARD_DATA_KEY walletAddress) = some dataStr ∧
          jsonParseSnap dataStr = some snap)) := by
  unfold getCachedData isCacheValid
  cases hts : Storage.getItem st (LAST_UPDATED_KEY walletAddress) with
  | none => simp
  | some tsStr =>
    cases hp : jsParseInt tsStr with
    | none => simp [hp]
    | some ts =>
      by_cases hfresh : now - ts < CACHE_DURATION
      · cases hd : Storage.getItem st (DASHBOARD_DATA_KEY walletAddress) with
        | none => simp [hp, hfresh, hd]
        | some dataStr => simp [hp, hfresh, hd]
      · simp [hp, hfresh]

/-- C7: a forced `loadDashboardData` bypasses the session-loaded flag,
the rate limiter and the fresh-cache short-circuit — whenever the lock
is free it always issues a network fetch, for every wallet state, every
recorded request time and every storage content — but it still respects
the single-flight lock: arriving mid-fetch it is a complete no-op. -/
theorem forced_load_bypasses_guards (σ : ProcState) (now : Nat)
    (walletAddress : Option String) (fetchResult : Except String Nat)
    (hn : jsFalsyStr walletAddress = false) :
    (σ.dashboardRequestInProgress = false →
      (loadDashboardData σ now walletAddress true fetchResult).issuedNetworkFetch = true) ∧
    (σ.dashboardRequestInProgress = true →
      loadDashboardData σ now walletAddress true fetchResult = loadNoOp σ) := by
  constructor
  · intro hfree
    unfold loadDashboardData getDashboardDataAndParse
    simp only [hn, hfree, Bool.false_eq_true, if_false, Bool.and_false, Bool.false_and,
      Bool.not_true, Bool.and_self]
    split
    all_goals simp [getDashboardData, getDashboardDataFetchPath_networkFetched]
  · intro hlock
    unfold loadDashboardData
    simp [hn, hlock]

/-- C7 witness: with a set session flag, a one-millisecond-old request
time and a fresh cache entry for `0xA1`, a forced load still fetches;
and a forced load against a held lock is a no-op. -/
theorem forced_load_bypasses_guards_witness :
    jsFalsyStr (some "0xA1") = false ∧
    (guardedProc.dashboardRequestInProgress = false →
      (loadDashboardData guardedProc 1000 (some "0xA1") true
          (Except.ok 43)).issuedNetworkFetch = true) ∧
    (lockedProc.dashboardRequestInProgress = true →
      loadDashboardData lockedProc 1000 (some "0xA1") true (Except.ok 43) =
        loadNoOp lockedProc) :=
  ⟨rfl,
   (forced_load_bypasses_guards guardedProc 1000 (some "0xA1") (Except.ok 43) rfl).1,
   (forced_load_bypasses_guards lockedProc 1000 (some "0xA1") (Except.ok 43) rfl).2⟩

/-- C3 counterexample: a perfectly readable cache entry for `0xA1`
(data `"42"` parses, timestamp `"0"` parses) that is ten minutes old —
beyond the five-minute TTL — is NOT served when the fetch fails: the
error propagates instead, on both the non-forced and the forced path,
because the failure fallback reuses the freshness-gated read. -/
theorem stale_entry_not_served_on_failure :
    Storage.getItem staleStore (DASHBOARD_DATA_KEY "0xA1") = some "42" ∧
    jsonParseSnap "42" = some 42 ∧
    Storage.getItem staleStore (LAST_UPDATED_KEY "0xA1") = some "0" ∧
    jsParseInt "0" = some 0 ∧
    ¬ (600000 - 0 < CACHE_DURATION) ∧
    (getDashboardData staleStore 600000 "0xA1" false
        (Except.error "HTTP error! status: 500")).result =
      Except.error "HTTP error! status: 500" ∧
    (getDashboardData staleStore 600000 "0xA1" true
        (Except.error "HTTP error! status: 500")).result =
      Except.error "HTTP error! status: 500" := by
  refine ⟨by decide, by decide, by decide, by decide, by decide, by decide, by decide⟩

/-- C3 amended: on a failing fetch the published result is the
freshness-gated cache read — a cached snapshot is served as degraded
success only if its age is strictly below the five-minute TTL, and the
error propagates exactly when no fresh entry exists (entries older than
the TTL are not served; there is no freshness-ignoring fallback read in
the code). -/
theorem fetch_failure_fallback_is_fresh_gated (st : Storage) (now : Nat)
    (walletAddress : String) (e : String) (forceRefresh : Bool) :
    (getDashboardData st now walletAddress forceRefresh (Except.error e)).result =
      (match getCachedData st now walletAddress with
       | some cachedData => Except.ok cachedData
       | none => Except.error e) := by
  unfold getDashboardData getDashboardDataFetchPath
  cases hc : getCachedData st now walletAddress <;> cases forceRefresh <;> simp [hc]

/-- C4 counterexample: on a fresh process a non-forced load for `0xA1`
at `t = 1000` issues a fetch that fails (no successful fetch has ever
happened: no snapshot published, session flag still clear); one second
later a second non-forced load for the same address performs no fetch —
it is blocked by the rate limiter, whose window was started by the
failed attempt. -/
theorem failed_attempt_blocks_next_load :
    failedLoadAtT1000.issuedNetworkFetch = true ∧
    failedLoadAtT1000.resolveActions =
      [WalletAction.setDashboardError "Failed to load portfolio data"] ∧
    stateAfterFailedLoad.wallet.dashboardData = none ∧
    stateAfterFailedLoad.wallet.hasLoadedDashboardThisSession = false ∧
    stateAfterFailedLoad.wallet.lastDashboardRequestTime = some 1000 ∧
    stateAfterFailedLoad.dashboardRequestInProgress = false ∧
    (loadDashboardData stateAfterFailedLoad 2000 (some "0xA1") false
        (Except.ok 42)).issuedNetworkFetch = false := by
  refine ⟨rfl, rfl, rfl, rfl, rfl, rfl, rfl⟩

/-- C4 amended: for a non-forced load with the lock free and a truthy
address, a network fetch is issued exactly when the session flag is
clear, the rate limiter is open, and no fresh cache entry exists. The
60-second window of the rate limiter is measured from
`lastDashboardRequestTime`, which records the *attempt* time: whenever
the call proceeds past the guards — including when the fetch then
fails — the committed state carries `lastDashboardRequestTime = now`,
so a failed attempt does block subsequent non-forced fetches for the
next 60 seconds. -/
theorem nonforced_load_decision (σ : ProcState) (now : Nat) (addr : String)
    (fetchResult : Except String Nat)
    (hfree : σ.dashboardRequestInProgress = false) (haddr : addr ≠ "") :
    ((loadDashboardData σ now (some addr) false fetchResult).issuedNetworkFetch = true ↔
      (σ.wallet.hasLoadedDashboardThisSession = false ∧
       canMakeDashboardRequest σ.wallet now = true ∧
       getCachedData σ.storage now addr = none)) ∧
    (acquiresLock σ now (some addr) false = true →
      (commitLoad σ
          (loadDashboardData σ now (some addr) false fetchResult)).wallet.lastDashboardRequestTime =
        some now) := by
  constructor
  · unfold loadDashboardData getDashboardDataAndParse getDashboardData
    simp only [jsFalsyStr, haddr, decide_eq_true_eq, hfree]
    cases hses : σ.wallet.hasLoadedDashboardThisSession with
    | true => simp [hses, loadNoOp]
    | false =>
      cases hcan : canMakeDashboardRequest σ.wallet now with
      | false => simp [hcan, loadNoOp]
      | true =>
        cases hc : getCachedData σ.storage now addr with
        | some cached => simp [hc, loadNoOp]
        | none =>
          cases fetchResult with
          | ok data => simp [hc, getDashboardDataFetchPath]
          | error e => simp [hc, getDashboardDataFetchPath]
  · intro hacq
    unfold loadDashboardData getDashboardDataAndParse
    have h1 : jsFalsyStr (some addr) = false := by simp [jsFalsyStr, haddr]
    have h2 : (σ.wallet.hasLoadedDashboardThisSession && !false) = false := by
      simp [acquiresLock, h1, hfree] at hacq
      simp [hacq.1]
    have h3 : (!false && !canMakeDashboardRequest σ.wallet now) = false := by
      simp [acquiresLock, h1, hfree] at hacq
      simp [hacq.2]
    simp only [h1, hfree, h2, h3, Bool.false_eq_true, if_false]
    split
    all_goals simp [commitLoad, applyActions, walletReducer]

/-- C4 amended witness: concrete decision — on a fresh process the fetch
is issued and the attempt time is recorded. -/
theorem nonforced_load_decision_witness :
    initialProc.dashboardRequestInProgress = false ∧ "0xA1" ≠ "" ∧
    (((loadDashboardData initialProc 0 (some "0xA1") false
          (Except.ok 9)).issuedNetworkFetch = true ↔
        (initialProc.wallet.hasLoadedDashboardThisSession = false ∧
         canMakeDashboardRequest initialProc.wallet 0 = true ∧
         getCachedData initialProc.storage 0 "0xA1" = none)) ∧
      (acquiresLock initialProc 0 (some "0xA1") false = true →
        (commitLoad initialProc
            (loadDashboardData initialProc 0 (some "0xA1") false
              (Except.ok 9))).wallet.lastDashboardRequestTime = some 0)) :=
  ⟨rfl, by decide,
   nonforced_load_decision initialProc 0 "0xA1" (Except.ok 9) rfl (by decide)⟩

/-- C1 counterexample: a non-forced load requested for `0xA1` issues a
fetch; it resolves successfully with snapshot `42` at a moment when the
active account has changed to `0xC3` (so the requested address no
longer equals the active one). The resolution dispatches
`SET_DASHBOARD_DATA` unconditionally — no re-validation of the requested
address happens — so replaying the resolution dispatches against the
current (`0xC3`) wallet state publishes the `0xA1` snapshot, sets the
session-loaded flag, and the `0xA1` cache entry has been written: the
mutation is committed, not discarded as the claim states. -/
theorem late_response_committed_unconditionally :
    (loadDashboardData connectedA1 1000 (some "0xA1") false
        (Except.ok 42)).issuedNetworkFetch = true ∧
    (loadDashboardData connectedA1 1000 (some "0xA1") false
        (Except.ok 42)).resolveActions = [WalletAction.setDashboardData 42] ∧
    walletC3.account = some "0xC3" ∧
    walletC3.account ≠ some "0xA1" ∧
    walletC3.dashboardData = none ∧
    walletC3.hasLoadedDashboardThisSession = false ∧
    (applyActions walletC3
        (loadDashboardData connectedA1 1000 (some "0xA1") false
          (Except.ok 42)).resolveActions).dashboardData = some 42 ∧
    (applyActions walletC3
        (loadDashboardData connectedA1 1000 (some "0xA1") false
          (Except.ok 42)).resolveActions).hasLoadedDashboardThisSession = true ∧
    Storage.getItem
        (loadDashboardData connectedA1 1000 (some "0xA1") false (Except.ok 42)).storage
        (DASHBOARD_DATA_KEY "0xA1") = some "42" := by
  refine ⟨rfl, rfl, rfl, by decide, rfl, rfl, rfl, rfl, rfl⟩

/-- C8: for every environment and every starting state, `isConnecting`
is false immediately after the terminal resolution of `connect`
(capability-missing failure, success including its nested dashboard
load, classified and unknown failures — all values of
`connectMetaMaskResult`) and of `disconnect` (success, the
`manual`/`error` advisory branches, and the thrown-exception path). The
timers both calls schedule after resolution dispatch only
`SET_ERROR`/`CLEAR_ERROR`, neither of which sets `isConnecting`. -/
theorem isConnecting_false_at_terminal_resolution :
    (∀ (σ : ProcState) (isMetaMaskInstalled : Bool)
        (connectMetaMaskResult : Except JsError WalletData) (now : Nat)
        (fetchResult : Except String Nat),
      (connect σ isMetaMaskInstalled connectMetaMaskResult now
          fetchResult).proc.wallet.isConnecting = false) ∧
    (∀ (σ : ProcState) (disconnectWalletResult : Except String DisconnectOutcome)
        (needsGuidance : Bool),
      (disconnect σ disconnectWalletResult needsGuidance).proc.wallet.isConnecting = false) := by
  constructor
  · intro σ inst cr now fr
    unfold connect
    cases inst with
    | false => simp [dispatchTo, walletReducer]
    | true =>
      cases cr with
      | ok walletData =>
        have hload := applyActions_load_isConnecting
          (dispatchTo (dispatchTo σ WalletAction.setConnecting)
            (WalletAction.setConnected walletData)).wallet
          (dispatchTo (dispatchTo σ WalletAction.setConnecting)
            (WalletAction.setConnected walletData)) now (some walletData.address) false fr
        simp only [Bool.true_eq_false, if_false, commitLoad, hload]
        simp [dispatchTo, walletReducer]
      | error e => simp [dispatchTo, walletReducer]
  · intro σ dr ng
    unfold disconnect
    cases dr with
    | ok res =>
      repeat' split
      all_goals simp [dispatchTo, walletReducer, initialState]
    | error e => simp [dispatchTo, walletReducer, initialState]

/-- C9: an account-change event with a non-empty account list, whose
re-resolution yields the new account, dispatches the session-flag reset
(`SET_DASHBOARD_LOADED_THIS_SESSION false`) and the connection update
first, invokes a forced dashboard load for the new address, and leaves
the durable cache entries (data and timestamp) of every other address —
in particular the previously active one — untouched: only the new
address's entries may be written. -/
theorem accountsChanged_resets_session_preserves_other_cache (σ : ProcState) (now : Nat)
    (accounts : List String) (account : WalletData) (fetchResult : Except String Nat)
    (disconnectWalletResult : Except String DisconnectOutcome) (needsGuidance : Bool)
    (hne : accounts.length ≠ 0) :
    (handleAccountsChanged σ now accounts (Except.ok (some account)) fetchResult
        disconnectWalletResult needsGuidance).forcedLoadInvoked = true ∧
    (∃ rest,
      (handleAccountsChanged σ now accounts (Except.ok (some account)) fetchResult
          disconnectWalletResult needsGuidance).actions =
        WalletAction.setDashboardLoadedThisSession false ::
          WalletAction.setConnected account :: rest) ∧
    (∀ prevAddr : String, prevAddr ≠ account.address →
      Storage.getItem
          (handleAccountsChanged σ now accounts (Except.ok (some account)) fetchResult
            disconnectWalletResult needsGuidance).proc.storage (DASHBOARD_DATA_KEY prevAddr) =
        Storage.getItem σ.storage (DASHBOARD_DATA_KEY prevAddr) ∧
      Storage.getItem
          (handleAccountsChanged σ now accounts (Except.ok (some account)) fetchResult
            disconnectWalletResult needsGuidance).proc.storage (LAST_UPDATED_KEY prevAddr) =
        Storage.getItem σ.storage (LAST_UPDATED_KEY prevAddr)) := by
  unfold handleAccountsChanged
  rw [if_neg hne]
  refine ⟨rfl, ⟨_, rfl⟩, ?_⟩
  intro prevAddr hprev
  constructor
  · exact loadDashboardData_storage_frame _ now account.address true fetchResult _
      (DASHBOARD_DATA_KEY_ne_of_ne prevAddr account.address hprev)
      (DASHBOARD_DATA_KEY_ne_LAST_UPDATED_KEY prevAddr account.address)
  · exact loadDashboardData_storage_frame _ now account.address true fetchResult _
      (Ne.symm (DASHBOARD_DATA_KEY_ne_LAST_UPDATED_KEY account.address prevAddr))
      (LAST_UPDATED_KEY_ne_of_ne prevAddr account.address hprev)

/-- C9 witness: concrete switch from `0xA1` to `0xC3` with a cache entry
for `0xB2` in storage. -/
theorem accountsChanged_resets_session_preserves_other_cache_witness :
    (["0xC3"] : List String).length ≠ 0 ∧
    ((handleAccountsChanged procA1withB2cache 200 ["0xC3"] (Except.ok (some walletDataC3))
        (Except.ok 42) (Except.ok { success := true, method := "revoke-permissions", message := "" })
        false).forcedLoadInvoked = true ∧
     (∃ rest,
       (handleAccountsChanged procA1withB2cache 200 ["0xC3"] (Except.ok (some walletDataC3))
          (Except.ok 42)
          (Except.ok { success := true, method := "revoke-permissions", message := "" })
          false).actions =
         WalletAction.setDashboardLoadedThisSession false ::
           WalletAction.setConnected walletDataC3 :: rest) ∧
     (∀ prevAddr : String, prevAddr ≠ walletDataC3.address →
       Storage.getItem
           (handleAccountsChanged procA1withB2cache 200 ["0xC3"] (Except.ok (some walletDataC3))
             (Except.ok 42)
             (Except.ok { success := true, method := "revoke-permissions", message := "" })
             false).proc.storage (DASHBOARD_DATA_KEY prevAddr) =
         Storage.getItem procA1withB2cache.storage (DASHBOARD_DATA_KEY prevAddr) ∧
       Storage.getItem
           (handleAccountsChanged procA1withB2cache 200 ["0xC3"] (Except.ok (some walletDataC3))
             (Except.ok 42)
             (Except.ok { success := true, method := "revoke-permissions", message := "" })
             false).proc.storage (LAST_UPDATED_KEY prevAddr) =
         Storage.getItem procA1withB2cache.storage (LAST_UPDATED_KEY prevAddr))) :=
  ⟨by decide,
   accountsChanged_resets_session_preserves_other_cache procA1withB2cache 200 ["0xC3"]
     walletDataC3 (Except.ok 42)
     (Except.ok { success := true, method := "revoke-permissions", message := "" }) false
     (by decide)⟩

/-- C10: when the underlying `forceWalletReset` reports success,
`forceDisconnect` terminates having dispatched only `SET_CONNECTING` —
no `SET_DISCONNECTED` and no `SET_ERROR` — so the state is left with
`isConnecting = true`; recovery relies on the page reload the reset
scheduled (1500 ms out on its normal success path). The
cleared-on-terminal-resolution guarantee of C8 therefore does not
extend to `forceDisconnect`. -/
theorem forceDisconnect_success_leaves_connecting (σ : ProcState)
    (isMetaMaskInstalled : Bool) (resetError : Option String)
    (h : (forceWalletReset isMetaMaskInstalled resetError).success = true) :
    (forceDisconnect σ isMetaMaskInstalled resetError false).actions =
      [WalletAction.setConnecting] ∧
    (forceDisconnect σ isMetaMaskInstalled resetError false).proc.wallet.isConnecting = true ∧
    (forceDisconnect σ isMetaMaskInstalled resetError false).reloadDelayMs =
      (forceWalletReset isMetaMaskInstalled resetError).reloadDelayMs ∧
    (forceDisconnect σ true none false).reloadDelayMs = some 1500 := by
  refine ⟨?_, ?_, ?_, ?_⟩
  · unfold forceDisconnect
    simp [h]
  · unfold forceDisconnect
    simp [h, dispatchTo, walletReducer]
  · unfold forceDisconnect
    simp [h]
  · unfold forceDisconnect forceWalletReset
    simp

/-- C10 witness: concrete successful force reset with MetaMask present. -/
theorem forceDisconnect_success_leaves_connecting_witness :
    (forceWalletReset true none).success = true ∧
    ((forceDisconnect initialProc true none false).actions = [WalletAction.setConnecting] ∧
     (forceDisconnect initialProc true none false).proc.wallet.isConnecting = true ∧
     (forceDisconnect initialProc true none false).reloadDelayMs =
       (forceWalletReset true none).reloadDelayMs ∧
     (forceDisconnect initialProc true none false).reloadDelayMs = some 1500) :=
  ⟨rfl, forceDisconnect_success_leaves_connecting initialProc true none rfl⟩

/-- A successfully-fetching `getDashboardData` call always returns a
snapshot (either the cache short-circuit or the fresh data), never an
error. -/
theorem getDashboardData_ok_result (st : Storage) (now : Nat) (walletAddress : String)
    (forceRefresh : Bool) (data : Nat) :
    ∃ d, (getDashboardData st now walletAddress forceRefresh (Except.ok data)).result =
      Except.ok d := by
  unfold getDashboardData getDashboardDataFetchPath
  repeat' split
  all_goals first
  | exact ⟨_, rfl⟩
  | simp_all

/-- C1 amended: when a `loadDashboardData` invocation that passed the
guards resolves successfully, its resolution dispatch is
`SET_DASHBOARD_DATA` unconditionally — the requested address is not
re-validated against the currently active address. Replaying the
resolution against ANY wallet state current at that moment (in
particular one whose active account differs from the requested address)
publishes the snapshot and sets the session-loaded flag: the late
result is committed, not discarded. -/
theorem late_response_always_published (σ : ProcState) (now : Nat) (wa : Option String)
    (forceRefresh : Bool) (data : Nat) (w : WalletState)
    (hacq : acquiresLock σ now wa forceRefresh = true) :
    ∃ d,
      (loadDashboardData σ now wa forceRefresh (Except.ok data)).resolveActions =
        [WalletAction.setDashboardData d] ∧
      (applyActions w
          (loadDashboardData σ now wa forceRefresh (Except.ok data)).resolveActions).dashboardData =
        some d ∧
      (applyActions w
          (loadDashboardData σ now wa forceRefresh
            (Except.ok data)).resolveActions).hasLoadedDashboardThisSession = true := by
  have h1 : jsFalsyStr wa = false := by
    cases hj : jsFalsyStr wa
    · rfl
    · simp [acquiresLock, hj] at hacq
  have h2 : σ.dashboardRequestInProgress = false := by
    cases hp : σ.dashboardRequestInProgress
    · rfl
    · simp [acquiresLock, hp] at hacq
  have h3 : (σ.wallet.hasLoadedDashboardThisSession && !forceRefresh) = false := by
    cases hs : (σ.wallet.hasLoadedDashboardThisSession && !forceRefresh)
    · rfl
    · simp [acquiresLock, hs] at hacq
  have h4 : (!forceRefresh && !canMakeDashboardRequest σ.wallet now) = false := by
    cases hf : forceRefresh
    · cases hc : canMakeDashboardRequest σ.wallet now
      · simp [acquiresLock, hf, hc] at hacq
      · simp [hc]
    · simp [hf]
  obtain ⟨d, hd⟩ :=
    getDashboardData_ok_result σ.storage now (wa.getD "") forceRefresh data
  refine ⟨d, ?_⟩
  unfold loadDashboardData getDashboardDataAndParse
  simp only [h1, h2, h3, h4, Bool.false_eq_true, if_false, hd]
  simp [applyActions, walletReducer]

/-- C1 amended witness: the concrete late `0xA1` response replayed
against the `0xC3` wallet state. -/
theorem late_response_always_published_witness :
    acquiresLock connectedA1 1000 (some "0xA1") false = true ∧
    (∃ d,
      (loadDashboardData connectedA1 1000 (some "0xA1") false (Except.ok 42)).resolveActions =
        [WalletAction.setDashboardData d] ∧
      (applyActions walletC3
          (loadDashboardData connectedA1 1000 (some "0xA1") false
            (Except.ok 42)).resolveActions).dashboardData = some d ∧
      (applyActions walletC3
          (loadDashboardData connectedA1 1000 (some "0xA1") false
            (Except.ok 42)).resolveActions).hasLoadedDashboardThisSession = true) :=
  ⟨by decide,
   late_response_always_published connectedA1 1000 (some "0xA1") false 42 walletC3 (by decide)⟩
